import Mathlib

/-!
# Verification of the postal-code dataset loader

Shallow embedding of the data-loading core of the
`get-postalcode-datacenter` repository:

* `src/src/hooks/useDatasets.ts` — the `useDatasets` hook (cache,
  retry with exponential backoff) and the `DataLoader` class
  (validation, filtering, fallback, recovery, file-existence probe).

JavaScript dynamic values reaching the validators are modelled by
`JSValue` (numbers as `ℚ`, so that `Number.isInteger` is expressible);
a possibly-non-object record is `Option RawDataset` (`none` stands for
`null` / non-object input).  Effectful operations (the HTTP HEAD probe,
the loader invocation, timers) are modelled by passing their outcome
as an explicit parameter.
-/

/-- A JavaScript primitive value as seen by the validators.
Numbers are modelled by `ℚ` so that `Number.isInteger` and the
order comparisons of the source are expressible exactly. -/
inductive JSValue where
  | undef
  | null
  | str (s : String)
  | num (q : ℚ)
  | boolean (b : Bool)
deriving DecidableEq, Repr

/-- JavaScript truthiness of a primitive value (`if (value)`). -/
def jsTruthy : JSValue → Bool
  | .undef => false
  | .null => false
  | .str s => s ≠ ""
  | .num q => q ≠ 0
  | .boolean b => b

/-- A raw dataset record: the seven fields the validator inspects,
each holding an arbitrary primitive value. -/
structure RawDataset where
  id : JSValue
  countryName : JSValue
  countryCode : JSValue
  postalCodeCount : JSValue
  region : JSValue
  status : JSValue
  sampleFileName : JSValue
deriving DecidableEq, Repr

/-- `ValidationError` of `dataLoader.ts` (the `value` and `path`
payloads, used only for logging, are omitted; `field` and `message`
are kept verbatim). -/
structure ValidationError where
  field : String
  message : String
deriving DecidableEq, Repr

/-- `ValidationResult` of `dataLoader.ts`. -/
structure ValidationResult where
  isValid : Bool
  errors : List ValidationError
  warnings : List ValidationError
deriving DecidableEq, Repr

/-- The regex `/^[a-z0-9-]+$/` used for `id`. -/
def idPattern (s : String) : Bool :=
  s.length != 0 && s.data.all (fun c => c.isLower || c.isDigit || c == '-')

/-- The regex `/^[A-Z]{2}$/` used for `countryCode`. -/
def countryCodePattern (s : String) : Bool :=
  s.length == 2 && s.data.all Char.isUpper

/-- The regex `/\.csv$/` used for `sampleFileName` (and the
`endsWith('.csv')` check of `getAssetPath`), expressed on the
character list. -/
def csvPattern (s : String) : Bool :=
  List.isSuffixOf ".csv".data s.data

/-- `stringValue.trim() === ''` of the source: a string trims to the
empty string exactly when every character is whitespace. -/
def isBlank (s : String) : Bool :=
  s.data.all Char.isWhitespace

/-- One pass of the `fieldValidations` loop of
`validateDatasetDetailed` for a required string field: returns the
errors and warnings it pushes, in push order (missing / wrong type /
empty each short-circuit via `continue`; otherwise the `minLength`
error, the `maxLength` warning and the pattern error are all
evaluated). -/
def requiredStringField (name : String) (v : JSValue)
    (minL maxL : Option Nat) (pat : Option (String → Bool))
    (patMsg : String) : List ValidationError × List ValidationError :=
  match v with
  | .undef => ([⟨name, s!"Required field \"{name}\" is missing"⟩], [])
  | .null => ([⟨name, s!"Required field \"{name}\" is missing"⟩], [])
  | .str s =>
      if isBlank s then
        ([⟨name, s!"Field \"{name}\" cannot be empty"⟩], [])
      else
        let minErrs := match minL with
          | some m =>
              if s.length < m then
                [⟨name, s!"Field \"{name}\" must be at least {m} characters"⟩]
              else []
          | none => []
        let maxWarns := match maxL with
          | some m =>
              if s.length > m then
                [⟨name, s!"Field \"{name}\" is longer than recommended {m} characters"⟩]
              else []
          | none => []
        let patErrs := match pat with
          | some p => if p s then [] else [⟨name, patMsg⟩]
          | none => []
        (minErrs ++ patErrs, maxWarns)
  | _ => ([⟨name, s!"Field \"{name}\" must be of type string"⟩], [])

/-- The `postalCodeCount` checks of `validateDatasetDetailed`:
missing / non-number / non-integer / non-positive are errors, a value
above ten million is a warning only. -/
def pccCheck (v : JSValue) : List ValidationError × List ValidationError :=
  match v with
  | .undef => ([⟨"postalCodeCount", "Required field \"postalCodeCount\" is missing"⟩], [])
  | .null => ([⟨"postalCodeCount", "Required field \"postalCodeCount\" is missing"⟩], [])
  | .num q =>
      if q.den ≠ 1 then
        ([⟨"postalCodeCount", "Field \"postalCodeCount\" must be an integer"⟩], [])
      else if q ≤ 0 then
        ([⟨"postalCodeCount", "Field \"postalCodeCount\" must be greater than 0"⟩], [])
      else if q > 10000000 then
        ([], [⟨"postalCodeCount", "Field \"postalCodeCount\" seems unusually high (>10M)"⟩])
      else ([], [])
  | _ => ([⟨"postalCodeCount", "Field \"postalCodeCount\" must be a number"⟩], [])

/-- The `validStatuses` enum of the source. -/
def validStatuses : List String := ["active", "inactive", "coming-soon"]

/-- The `status` checks of `validateDatasetDetailed`. -/
def statusCheck (v : JSValue) : List ValidationError × List ValidationError :=
  match v with
  | .undef => ([⟨"status", "Required field \"status\" is missing"⟩], [])
  | .null => ([⟨"status", "Required field \"status\" is missing"⟩], [])
  | .str s =>
      if s ∈ validStatuses then ([], [])
      else ([⟨"status", "Field \"status\" must be one of: active, inactive, coming-soon"⟩], [])
  | _ => ([⟨"status", "Field \"status\" must be a string"⟩], [])

/-- The `id` row of the `fieldValidations` table. -/
def idCheck (v : JSValue) : List ValidationError × List ValidationError :=
  requiredStringField "id" v none none (some idPattern)
    "ID must contain only lowercase letters, numbers, and hyphens"

/-- The `countryName` row of the `fieldValidations` table
(min length 2, max length 100, no pattern). -/
def countryNameCheck (v : JSValue) : List ValidationError × List ValidationError :=
  requiredStringField "countryName" v (some 2) (some 100) none ""

/-- The `countryCode` row of the `fieldValidations` table. -/
def countryCodeCheck (v : JSValue) : List ValidationError × List ValidationError :=
  requiredStringField "countryCode" v none none (some countryCodePattern)
    "Country code must be exactly 2 uppercase letters"

/-- The `region` row of the `fieldValidations` table
(min length 2, max length 50, no pattern). -/
def regionCheck (v : JSValue) : List ValidationError × List ValidationError :=
  requiredStringField "region" v (some 2) (some 50) none ""

/-- The `sampleFileName` row of the `fieldValidations` table. -/
def sampleFileNameCheck (v : JSValue) : List ValidationError × List ValidationError :=
  requiredStringField "sampleFileName" v none none (some csvPattern)
    "Sample filename must end with .csv"

/-- Body of `validateDatasetDetailed` once the input is known to be an
object: the five string fields in source order, then
`postalCodeCount`, then `status`; `isValid` is `errors.length === 0`. -/
def validateDatasetFields (r : RawDataset) : ValidationResult :=
  let fId := idCheck r.id
  let fCN := countryNameCheck r.countryName
  let fCC := countryCodeCheck r.countryCode
  let fRg := regionCheck r.region
  let fSF := sampleFileNameCheck r.sampleFileName
  let fPc := pccCheck r.postalCodeCount
  let fSt := statusCheck r.status
  let errs := fId.1 ++ fCN.1 ++ fCC.1 ++ fRg.1 ++ fSF.1 ++ fPc.1 ++ fSt.1
  let warns := fId.2 ++ fCN.2 ++ fCC.2 ++ fRg.2 ++ fSF.2 ++ fPc.2 ++ fSt.2
  { isValid := errs.isEmpty, errors := errs, warnings := warns }

/-- `DataLoader.validateDatasetDetailed(dataset, path)`: a `null` or
non-object input yields the single root error (whose `field` is the
`path` argument); otherwise the field rules run.  (The `path` argument
only feeds the omitted `path` payload after this point, so the object
branch does not depend on it.) -/
def validateDatasetDetailed (d : Option RawDataset) (path : String) : ValidationResult :=
  match d with
  | none => { isValid := false
              errors := [⟨path, "Dataset must be a non-null object"⟩]
              warnings := [] }
  | some r => validateDatasetFields r

/-- `DataLoader.validateDataset` (legacy boolean wrapper). -/
def validateDataset (d : Option RawDataset) : Bool :=
  (validateDatasetDetailed d "dataset").isValid

/-- Raw `metadata` object of a collection document. -/
structure RawMetadata where
  lastUpdated : JSValue
  version : JSValue
  totalCountries : JSValue
deriving DecidableEq, Repr

/-- The `datasets` property of the raw collection document:
absent (`!hasOwnProperty`), present but not an array, or an array of
raw records. -/
inductive DatasetsProp where
  | absent
  | notArray
  | arr (records : List (Option RawDataset))
deriving DecidableEq, Repr

/-- The `metadata` property of the raw collection document. -/
inductive MetadataProp where
  | absent
  | notObject
  | obj (m : RawMetadata)
deriving DecidableEq, Repr

/-- A raw collection document: either not an object at all, or an
object with its `datasets` and `metadata` properties. -/
inductive RawCollection where
  | notObject
  | obj (datasets : DatasetsProp) (metadata : MetadataProp)
deriving DecidableEq, Repr

/-- The regex `/^\d{4}-\d{2}-\d{2}$/` for `metadata.lastUpdated`. -/
def isDateFormat (s : String) : Bool :=
  match s.data with
  | [a, b, c, d, h1, e, f, h2, g, h] =>
      [a, b, c, d, e, f, g, h].all Char.isDigit && h1 == '-' && h2 == '-'
  | _ => false

/-- Splitting a character list at every dot (the `split`-on-`"."` the
semantic-version regex amounts to). -/
def splitOnDot : List Char → List (List Char)
  | [] => [[]]
  | c :: cs =>
      let r := splitOnDot cs
      if c = '.' then [] :: r
      else
        match r with
        | [] => [[c]]
        | h :: t => (c :: h) :: t

/-- The regex `/^\d+\.\d+\.\d+$/` for `metadata.version`. -/
def isSemverFormat (s : String) : Bool :=
  match splitOnDot s.data with
  | [a, b, c] =>
      a.length != 0 && b.length != 0 && c.length != 0 &&
      a.all Char.isDigit && b.all Char.isDigit && c.all Char.isDigit
  | _ => false

/-- The `metadata` field checks of
`validateDatasetCollectionDetailed`: `lastUpdated`, `version`,
`totalCountries` in source order (format mismatches are warnings,
type errors and a negative count are errors; a count differing from
the datasets array length is a warning). -/
def metadataChecks (m : RawMetadata) (ds : DatasetsProp) :
    List ValidationError × List ValidationError :=
  let lu : List ValidationError × List ValidationError :=
    match m.lastUpdated with
    | .str s =>
        if isDateFormat s then ([], [])
        else ([], [⟨"metadata.lastUpdated", "lastUpdated should be in YYYY-MM-DD format"⟩])
    | _ => ([⟨"metadata.lastUpdated", "lastUpdated must be a string"⟩], [])
  let ver : List ValidationError × List ValidationError :=
    match m.version with
    | .str s =>
        if isSemverFormat s then ([], [])
        else ([], [⟨"metadata.version", "version should follow semantic versioning (x.y.z)"⟩])
    | _ => ([⟨"metadata.version", "version must be a string"⟩], [])
  let tc : List ValidationError × List ValidationError :=
    match m.totalCountries with
    | .num q =>
        if q < 0 then
          ([⟨"metadata.totalCountries", "totalCountries must be non-negative"⟩], [])
        else
          match ds with
          | .arr l =>
              if q ≠ (l.length : ℚ) then
                ([], [⟨"metadata.totalCountries",
                       "totalCountries does not match actual datasets length"⟩])
              else ([], [])
          | _ => ([], [])
    | _ => ([⟨"metadata.totalCountries", "totalCountries must be a number"⟩], [])
  (lu.1 ++ ver.1 ++ tc.1, lu.2 ++ ver.2 ++ tc.2)

/-- `DataLoader.validateDatasetCollectionDetailed`: envelope
validation of the collection document (`datasets` property, then
`metadata`); an empty `datasets` array is a warning, not an error. -/
def validateDatasetCollectionDetailed (data : RawCollection) : ValidationResult :=
  match data with
  | .notObject =>
      { isValid := false
        errors := [⟨"root", "Data must be a non-null object"⟩]
        warnings := [] }
  | .obj ds md =>
      let dsPart : List ValidationError × List ValidationError :=
        match ds with
        | .absent => ([⟨"datasets", "Missing required property \"datasets\""⟩], [])
        | .notArray => ([⟨"datasets", "Property \"datasets\" must be an array"⟩], [])
        | .arr l =>
            if l.length = 0 then ([], [⟨"datasets", "Datasets array is empty"⟩])
            else ([], [])
      let mdPart : List ValidationError × List ValidationError :=
        match md with
        | .absent => ([⟨"metadata", "Missing required property \"metadata\""⟩], [])
        | .notObject => ([⟨"metadata", "Metadata must be an object"⟩], [])
        | .obj m => metadataChecks m ds
      let errs := dsPart.1 ++ mdPart.1
      { isValid := errs.isEmpty
        errors := errs
        warnings := dsPart.2 ++ mdPart.2 }

/-- `DataLoader.validateDatasetCollection` (legacy boolean wrapper). -/
def validateDatasetCollection (data : RawCollection) : Bool :=
  (validateDatasetCollectionDetailed data).isValid

/-- Result record of `DataLoader.filterValidDatasets`. -/
structure FilterResult where
  valid : List (Option RawDataset)
  invalid : List (Option RawDataset × List ValidationError)
  totalProcessed : Nat
deriving DecidableEq, Repr

/-- The loop of `filterValidDatasets`: index `i` feeds the
`dataset[i]` path; a record validating cleanly is pushed to `valid`,
otherwise it is pushed to `invalid` together with its errors. -/
def filterGo (i : Nat) :
    List (Option RawDataset) →
    List (Option RawDataset) × List (Option RawDataset × List ValidationError)
  | [] => ([], [])
  | d :: rest =>
      let v := validateDatasetDetailed d s!"dataset[{i}]"
      let tail := filterGo (i + 1) rest
      if v.isValid then (d :: tail.1, tail.2)
      else (tail.1, (d, v.errors) :: tail.2)

/-- `DataLoader.filterValidDatasets`: partitions the raw records into
valid ones and invalid ones with their reasons. -/
def filterValidDatasets (datasets : List (Option RawDataset)) : FilterResult :=
  let p := filterGo 0 datasets
  { valid := p.1, invalid := p.2, totalProcessed := datasets.length }

/-- Accumulator of the per-record loop of `validateJsonSchema`:
collected errors and warnings plus the `datasetIds` and
`countryCodes` sets (modelled as lists, membership up to value
equality just like the JS `Set`). -/
structure SchemaState where
  errors : List ValidationError
  warnings : List ValidationError
  datasetIds : List JSValue
  countryCodes : List JSValue
deriving DecidableEq, Repr

/-- One iteration of the `validateJsonSchema` loop at index `i`:
validate the record, append its errors and warnings, then (for an
individually valid record with a truthy `id` / `countryCode`) flag a
duplicate `id` as an error and a duplicate `countryCode` as a
warning, otherwise remember the value. -/
def schemaStep (i : Nat) (d : Option RawDataset) (st : SchemaState) : SchemaState :=
  let dv := validateDatasetDetailed d s!"datasets[{i}]"
  let st1 : SchemaState :=
    { st with errors := st.errors ++ dv.errors, warnings := st.warnings ++ dv.warnings }
  match d with
  | none => st1
  | some r =>
      let st2 : SchemaState :=
        if dv.isValid && jsTruthy r.id then
          if r.id ∈ st1.datasetIds then
            { st1 with errors := st1.errors ++
                [⟨"id", "Duplicate dataset ID found"⟩] }
          else { st1 with datasetIds := st1.datasetIds ++ [r.id] }
        else st1
      if dv.isValid && jsTruthy r.countryCode then
        if r.countryCode ∈ st2.countryCodes then
          { st2 with warnings := st2.warnings ++
              [⟨"countryCode", "Duplicate country code found"⟩] }
        else { st2 with countryCodes := st2.countryCodes ++ [r.countryCode] }
      else st2

/-- The indexed fold driving the `validateJsonSchema` loop. -/
def schemaFold (i : Nat) (l : List (Option RawDataset)) (st : SchemaState) : SchemaState :=
  match l with
  | [] => st
  | d :: rest => schemaFold (i + 1) rest (schemaStep i d st)

/-- `DataLoader.validateJsonSchema`: envelope validation first; when
the envelope is valid and `datasets` is an array, every record is
validated and duplicate `id` / `countryCode` values are flagged. -/
def validateJsonSchema (data : RawCollection) : ValidationResult :=
  let cv := validateDatasetCollectionDetailed data
  let st0 : SchemaState := ⟨cv.errors, cv.warnings, [], []⟩
  let st :=
    if cv.isValid then
      match data with
      | .obj (.arr l) _ => schemaFold 0 l st0
      | _ => st0
    else st0
  { isValid := st.errors.isEmpty, errors := st.errors, warnings := st.warnings }

/-- `DataLoader.getFallbackDatasets`: the fixed single-record
fallback set. -/
def getFallbackDatasets : List (Option RawDataset) :=
  [some { id := .str "us"
          countryName := .str "United States"
          countryCode := .str "US"
          postalCodeCount := .num 41692
          region := .str "North America"
          status := .str "active"
          sampleFileName := .str "us-postal-codes-sample.csv" }]

/-- `DataLoaderErrorCode` of the source. -/
inductive DataLoaderErrorCode where
  | NETWORK_ERROR
  | PARSE_ERROR
  | VALIDATION_ERROR
  | FILE_NOT_FOUND
  | PERMISSION_ERROR
  | TIMEOUT_ERROR
  | UNKNOWN_ERROR
deriving DecidableEq, Repr

/-- The `ERROR_MESSAGES` table. -/
def ERROR_MESSAGES : DataLoaderErrorCode → String
  | .NETWORK_ERROR =>
      "Unable to connect to the server. Please check your internet connection and try again."
  | .PARSE_ERROR =>
      "The data format is invalid. Please contact support if this problem persists."
  | .VALIDATION_ERROR =>
      "Some data entries are invalid and have been filtered out."
  | .FILE_NOT_FOUND => "The requested file could not be found."
  | .PERMISSION_ERROR => "You do not have permission to access this resource."
  | .TIMEOUT_ERROR => "The request timed out. Please try again."
  | .UNKNOWN_ERROR => "An unexpected error occurred. Please try again or contact support."

/-- `DataLoaderError` (the `cause` chain is omitted; the `code`
constructor argument may be left out in the source, hence `Option`). -/
structure DataLoaderError where
  message : String
  code : Option DataLoaderErrorCode
  recoverable : Bool
deriving DecidableEq, Repr

/-- The `datasets` array of a collection document (only reached by the
loader after envelope validation has succeeded, which forces the
array case). -/
def collectionDatasets : RawCollection → List (Option RawDataset)
  | .obj (.arr l) _ => l
  | _ => []

/-- The validation-and-filtering core of `DataLoader.loadDatasets`,
acting on an already fetched collection document: an invalid envelope
fails with a non-recoverable `VALIDATION_ERROR` before any record
filtering; a valid envelope whose records all get filtered out fails
with a recoverable `VALIDATION_ERROR`; otherwise the surviving
records are returned. -/
def loadDatasetsFromData (data : RawCollection) :
    Except DataLoaderError (List (Option RawDataset)) :=
  let cv := validateDatasetCollectionDetailed data
  if cv.isValid then
    let fr := filterValidDatasets (collectionDatasets data)
    if fr.valid.length = 0 then
      .error { message := "No valid datasets found. Using fallback data."
               code := some .VALIDATION_ERROR
               recoverable := true }
    else .ok fr.valid
  else
    .error { message := ERROR_MESSAGES .VALIDATION_ERROR
             code := some .VALIDATION_ERROR
             recoverable := false }

/-- The failure thrown when every recovery strategy of
`attemptRecovery` is exhausted. -/
def recoveryFailure (_original : DataLoaderError) : DataLoaderError :=
  { message := "Unable to recover data. Please refresh the page or contact support."
    code := some .UNKNOWN_ERROR
    recoverable := false }

/-- Strategy 2 of `attemptRecovery`: the emergency `localStorage`
cache, modelled as `none` when absent or unparsable and `some raw`
when it parses to an array of raw records. -/
def emergencyRecovery (original : DataLoaderError)
    (emergencyCache : Option (List (Option RawDataset))) :
    Except DataLoaderError (List (Option RawDataset)) :=
  match emergencyCache with
  | some raw =>
      let v := filterValidDatasets raw
      if v.valid.length > 0 then .ok v.valid
      else .error (recoveryFailure original)
  | none => .error (recoveryFailure original)

/-- `DataLoader.attemptRecovery`: for a recoverable original error the
validated fallback set is tried first; then the emergency cache; then
a non-recoverable `UNKNOWN_ERROR` is thrown. -/
def attemptRecovery (original : DataLoaderError)
    (emergencyCache : Option (List (Option RawDataset))) :
    Except DataLoaderError (List (Option RawDataset)) :=
  if original.recoverable then
    let v := filterValidDatasets getFallbackDatasets
    if v.valid.length > 0 then .ok v.valid
    else emergencyRecovery original emergencyCache
  else emergencyRecovery original emergencyCache

/-- `ASSETS_BASE_PATH` of the source. -/
def ASSETS_BASE_PATH : String := "public/assets/samples"

/-- `DataLoader.getAssetPath` (the validated variant of
`dataLoader.ts`): throws for an empty filename or one not ending in
`.csv`, otherwise resolves under the assets base path. -/
def getAssetPath (filename : String) : Except DataLoaderError String :=
  if filename = "" then
    .error { message := "Filename is required for asset path generation"
             code := none, recoverable := true }
  else if !(csvPattern filename) then
    .error { message := "Asset filename must end with .csv"
             code := none, recoverable := true }
  else
    .ok (ASSETS_BASE_PATH ++ "/" ++ filename)

/-- The 5000 ms bound of the `checkFileExists` `Promise.race`. -/
def FILE_CHECK_TIMEOUT_MS : Nat := 5000

/-- Outcome of the HEAD fetch issued by `checkFileExists`: the fetch
either resolves after `t` milliseconds with `response.ok = ok`, or
rejects after `t` milliseconds (network failure). -/
inductive ProbeOutcome where
  | responds (t : Nat) (ok : Bool)
  | fails (t : Nat)
deriving DecidableEq, Repr

/-- The `Promise.race` of the HEAD fetch against the timeout: a fetch
settling at or after the bound loses to the timeout rejection. -/
def raceProbe (timeoutMs : Nat) : ProbeOutcome → Except String Bool
  | .responds t ok => if t < timeoutMs then .ok ok else .error "File check timeout"
  | .fails t => if t < timeoutMs then .error "fetch failed" else .error "File check timeout"

/-- `DataLoader.checkFileExists`: an empty filename is rejected up
front; asset-path resolution may throw (caught below); the probe is
raced against the 5 s timeout; the surrounding `try`/`catch` maps
every failure to `false`. -/
def checkFileExists (filename : String) (probe : ProbeOutcome) : Bool :=
  let body : Except String Bool :=
    if filename = "" then .ok false
    else
      match getAssetPath filename with
      | .error e => .error e.message
      | .ok _ => raceProbe FILE_CHECK_TIMEOUT_MS probe
  match body with
  | .ok b => b
  | .error _ => false

/-- Options of the `useDatasets` hook (the fields the load path
reads), with the source defaults in `defaultUseDatasetOptions`. -/
structure UseDatasetOptions where
  cacheDuration : Nat
  maxRetries : Nat
  retryDelay : Nat
  exponentialBackoff : Bool
deriving DecidableEq, Repr

/-- The source defaults: 5 minutes cache, 3 retries, 1000 ms base
delay, exponential backoff on. -/
def defaultUseDatasetOptions : UseDatasetOptions :=
  { cacheDuration := 5 * 60 * 1000
    maxRetries := 3
    retryDelay := 1000
    exponentialBackoff := true }

/-- The single-slot cache entry (`dataCache` holds at most one entry
under the fixed key `"datasets"`). -/
structure CacheEntry where
  data : List (Option RawDataset)
  timestamp : Nat
deriving DecidableEq, Repr

/-- `isCacheValid`: an entry is valid while `now - timestamp <
cacheDuration`. -/
def isCacheValid (opts : UseDatasetOptions) (cache : Option CacheEntry)
    (now : Nat) : Bool :=
  match cache with
  | none => false
  | some c => now - c.timestamp < opts.cacheDuration

/-- `getCachedData`: the cached list when the entry is valid. -/
def getCachedData (opts : UseDatasetOptions) (cache : Option CacheEntry)
    (now : Nat) : Option (List (Option RawDataset)) :=
  if isCacheValid opts cache now then
    match cache with
    | some c => some c.data
    | none => none
  else none

/-- The cache-hit guard of `loadData`
(`if (cachedData && attempt === 1)`). -/
def cacheHit (opts : UseDatasetOptions) (cache : Option CacheEntry)
    (now : Nat) (attempt : Nat) : Bool :=
  (getCachedData opts cache now).isSome && attempt == 1

/-- `calculateRetryDelay`: flat `retryDelay` without exponential
backoff, `retryDelay * 2^(attempt-1)` with it. -/
def calculateRetryDelay (opts : UseDatasetOptions) (attempt : Nat) : Nat :=
  if !opts.exponentialBackoff then opts.retryDelay
  else opts.retryDelay * 2 ^ (attempt - 1)

/-- Observable React state of the hook after a `loadData` call. -/
structure HookState where
  data : Option (List (Option RawDataset))
  loading : Bool
  error : Option String
  retryCount : Nat
deriving DecidableEq, Repr

/-- Everything one `loadData(attempt)` invocation does: the resulting
hook state and cache slot, whether `DataLoader.loadDatasets` was
invoked, and the retry timer it scheduled (delay, next attempt), if
any. -/
structure LoadOutcome where
  state : HookState
  cache : Option CacheEntry
  loaderInvoked : Bool
  retryScheduled : Option (Nat × Nat)
deriving DecidableEq, Repr

/-- One invocation of `loadData(attempt)` on a mounted component,
with the loader's would-be result passed explicitly: a valid cache
entry at attempt 1 short-circuits without invoking the loader; a
loader success stores data and cache and resets the retry counter; a
loader failure schedules a retry while `attempt < maxRetries`
(whatever the error's `recoverable` flag) and otherwise clears the
data, surfaces the error and freezes the counter at `maxRetries`. -/
def loadData (opts : UseDatasetOptions) (attempt : Nat)
    (cache : Option CacheEntry) (now : Nat) (prev : HookState)
    (loaderResult : Except DataLoaderError (List (Option RawDataset))) :
    LoadOutcome :=
  if cacheHit opts cache now attempt then
    { state := { data := getCachedData opts cache now, loading := false
                 error := none, retryCount := 0 }
      cache := cache, loaderInvoked := false, retryScheduled := none }
  else
    match loaderResult with
    | .ok datasets =>
        { state := { data := some datasets, loading := false
                     error := none, retryCount := 0 }
          cache := some { data := datasets, timestamp := now }
          loaderInvoked := true, retryScheduled := none }
    | .error err =>
        if attempt < opts.maxRetries then
          let delay := calculateRetryDelay opts attempt
          let secs := (delay + 999) / 1000
          let msg := err.message
          { state := { data := prev.data, loading := false
                       error := some s!"{msg} (retrying in {secs}s...)"
                       retryCount := attempt - 1 }
            cache := cache, loaderInvoked := true
            retryScheduled := some (delay, attempt + 1) }
        else
          { state := { data := none, loading := false
                       error := some err.message, retryCount := opts.maxRetries }
            cache := cache, loaderInvoked := true, retryScheduled := none }

/-- Boolean record validity (the verdict of `validateDatasetDetailed`,
which does not depend on the `path` argument). -/
def recValid : Option RawDataset → Bool
  | none => false
  | some r => (validateDatasetFields r).isValid

/-- The `id` value a record contributes to the duplicate scan
(`undefined` for a non-object entry, which the scan skips anyway). -/
def recId : Option RawDataset → JSValue
  | none => .undef
  | some r => r.id

/-- The United States record of `getFallbackDatasets`, also used as a
well-formed concrete record in witnesses. -/
def usDataset : RawDataset :=
  { id := .str "us"
    countryName := .str "United States"
    countryCode := .str "US"
    postalCodeCount := .num 41692
    region := .str "North America"
    status := .str "active"
    sampleFileName := .str "us-postal-codes-sample.csv" }

/-- A second well-formed record with a fresh `id` but the same
`countryCode` as `usDataset`. -/
def usDataset2 : RawDataset :=
  { usDataset with id := .str "us-2" }

/-- A well-formed metadata object (`totalCountries` = 2). -/
def sampleMetadata : RawMetadata :=
  { lastUpdated := .str "2025-01-09", version := .str "1.0.0", totalCountries := .num 2 }

/-- A collection with a valid envelope none of whose records are
valid. -/
def invalidRecordsCollection : RawCollection :=
  .obj (.arr [none]) (.obj sampleMetadata)

/-- The hook state before any load. -/
def emptyHookState : HookState :=
  { data := none, loading := false, error := none, retryCount := 0 }

/-- The non-recoverable failure `loadDatasets` raises for a JSON parse
problem. -/
def parseFailure : DataLoaderError :=
  { message := ERROR_MESSAGES .PARSE_ERROR
    code := some .PARSE_ERROR
    recoverable := false }

/-- The validator's verdict equals emptiness of its error list. -/
theorem validateDatasetDetailed_isValid_eq (d : Option RawDataset) (path : String) :
    (validateDatasetDetailed d path).isValid = (validateDatasetDetailed d path).errors.isEmpty := by
  cases d <;> rfl

/-- The verdict of `validateDatasetDetailed` does not depend on the
`path` argument. -/
theorem validateDatasetDetailed_isValid_path (d : Option RawDataset) (path : String) :
    (validateDatasetDetailed d path).isValid = recValid d := by
  cases d <;> rfl

/-- The envelope validator's verdict equals emptiness of its error
list. -/
theorem validateDatasetCollectionDetailed_isValid_eq (data : RawCollection) :
    (validateDatasetCollectionDetailed data).isValid =
      (validateDatasetCollectionDetailed data).errors.isEmpty := by
  cases data <;> rfl

/-- C2: for every attempt `n ≥ 1` the retry delay is
`retryDelay * 2^(n-1)` with exponential backoff and the flat
`retryDelay` without; with the defaults (`retryDelay = 1000`,
exponential on) the delays for attempts 1, 2, 3 are 1000 ms, 2000 ms
and 4000 ms. -/
theorem calculateRetryDelay_spec (opts : UseDatasetOptions) (n : Nat) (_h : 1 ≤ n) :
    calculateRetryDelay opts n =
      (if opts.exponentialBackoff then opts.retryDelay * 2 ^ (n - 1)
       else opts.retryDelay) ∧
    calculateRetryDelay defaultUseDatasetOptions 1 = 1000 ∧
    calculateRetryDelay defaultUseDatasetOptions 2 = 2000 ∧
    calculateRetryDelay defaultUseDatasetOptions 3 = 4000 := by
  refine ⟨?_, by decide, by decide, by decide⟩
  unfold calculateRetryDelay
  cases h : opts.exponentialBackoff <;> simp [h]

/-- Witness for `calculateRetryDelay_spec` at attempt 3. -/
theorem calculateRetryDelay_spec_witness :
    1 ≤ 3 ∧
    (calculateRetryDelay defaultUseDatasetOptions 3 =
      (if defaultUseDatasetOptions.exponentialBackoff then
        defaultUseDatasetOptions.retryDelay * 2 ^ (3 - 1)
       else defaultUseDatasetOptions.retryDelay) ∧
    calculateRetryDelay defaultUseDatasetOptions 1 = 1000 ∧
    calculateRetryDelay defaultUseDatasetOptions 2 = 2000 ∧
    calculateRetryDelay defaultUseDatasetOptions 3 = 4000) :=
  ⟨by decide, calculateRetryDelay_spec defaultUseDatasetOptions 3 (by decide)⟩

/-- C3: a `loadData(1)` call finding a cache entry with
`now - timestamp < cacheDuration` returns the cached data without
invoking the loader and clears `error` and `retryCount`; with the
entry expired, the loader is invoked again. -/
theorem loadData_cache_spec (opts : UseDatasetOptions) (entry : CacheEntry) (now : Nat)
    (prev : HookState) (res : Except DataLoaderError (List (Option RawDataset))) :
    (now - entry.timestamp < opts.cacheDuration →
      (loadData opts 1 (some entry) now prev res).loaderInvoked = false ∧
      (loadData opts 1 (some entry) now prev res).state.data = some entry.data ∧
      (loadData opts 1 (some entry) now prev res).state.error = none ∧
      (loadData opts 1 (some entry) now prev res).state.retryCount = 0) ∧
    (opts.cacheDuration ≤ now - entry.timestamp →
      (loadData opts 1 (some entry) now prev res).loaderInvoked = true) := by
  constructor
  · intro hvalid
    have hhit : cacheHit opts (some entry) now 1 = true := by
      simp [cacheHit, getCachedData, isCacheValid, hvalid]
    simp [loadData, hhit, getCachedData, isCacheValid, hvalid]
  · intro hexp
    have hnv : isCacheValid opts (some entry) now = false := by
      simp [isCacheValid]
      omega
    have hhit : cacheHit opts (some entry) now 1 = false := by
      simp [cacheHit, getCachedData, hnv]
    cases res with
    | ok datasets => simp [loadData, hhit]
    | error err =>
        simp only [loadData, hhit, Bool.false_eq_true, if_false]
        split <;> rfl

/-- Witness for `loadData_cache_spec`: a fresh entry at `now = 200`
short-circuits, an expired one at `now = 400000` re-invokes the
loader. -/
theorem loadData_cache_spec_witness :
    (200 - 100 < defaultUseDatasetOptions.cacheDuration ∧
      (loadData defaultUseDatasetOptions 1 (some ⟨getFallbackDatasets, 100⟩) 200
        emptyHookState (.ok [])).loaderInvoked = false ∧
      (loadData defaultUseDatasetOptions 1 (some ⟨getFallbackDatasets, 100⟩) 200
        emptyHookState (.ok [])).state.data = some getFallbackDatasets ∧
      (loadData defaultUseDatasetOptions 1 (some ⟨getFallbackDatasets, 100⟩) 200
        emptyHookState (.ok [])).state.error = none ∧
      (loadData defaultUseDatasetOptions 1 (some ⟨getFallbackDatasets, 100⟩) 200
        emptyHookState (.ok [])).state.retryCount = 0) ∧
    (defaultUseDatasetOptions.cacheDuration ≤ 400000 - 100 ∧
      (loadData defaultUseDatasetOptions 1 (some ⟨getFallbackDatasets, 100⟩) 400000
        emptyHookState (.ok [])).loaderInvoked = true) :=
  ⟨⟨by decide,
    (loadData_cache_spec defaultUseDatasetOptions ⟨getFallbackDatasets, 100⟩ 200
      emptyHookState (.ok [])).1 (by decide)⟩,
   ⟨by decide,
    (loadData_cache_spec defaultUseDatasetOptions ⟨getFallbackDatasets, 100⟩ 400000
      emptyHookState (.ok [])).2 (by decide)⟩⟩

/-- C1 (counterexample): a Loader failure whose `recoverable` flag is
`false` (a `PARSE_ERROR`) at attempt 1 of a fresh cycle makes
`loadData` schedule a retry timer (1000 ms, attempt 2) instead of
failing immediately — the `catch` branch never consults the flag. -/
theorem loadData_nonrecoverable_schedules_retry :
    (loadData defaultUseDatasetOptions 1 none 0 emptyHookState
      (.error parseFailure)).retryScheduled = some (1000, 2) ∧
    (loadData defaultUseDatasetOptions 1 none 0 emptyHookState
      (.error parseFailure)).state.data = emptyHookState.data :=
  ⟨rfl, rfl⟩

/-- C1 (amended): on a Loader failure of a non-cache-hit cycle,
whatever the error's `recoverable` flag, `loadData` schedules a retry
(with the backoff delay, keeping the previous data) while
`attempt < maxRetries`, and only at `attempt ≥ maxRetries` fails:
data cleared, error surfaced, retry counter frozen at `maxRetries`. -/
theorem loadData_failure_spec (opts : UseDatasetOptions) (attempt : Nat)
    (cache : Option CacheEntry) (now : Nat) (prev : HookState) (err : DataLoaderError)
    (hnohit : cacheHit opts cache now attempt = false) :
    (attempt < opts.maxRetries →
      (loadData opts attempt cache now prev (.error err)).retryScheduled =
        some (calculateRetryDelay opts attempt, attempt + 1) ∧
      (loadData opts attempt cache now prev (.error err)).state.data = prev.data ∧
      (loadData opts attempt cache now prev (.error err)).state.retryCount = attempt - 1 ∧
      (loadData opts attempt cache now prev (.error err)).loaderInvoked = true) ∧
    (opts.maxRetries ≤ attempt →
      (loadData opts attempt cache now prev (.error err)).retryScheduled = none ∧
      (loadData opts attempt cache now prev (.error err)).state.data = none ∧
      (loadData opts attempt cache now prev (.error err)).state.error = some err.message ∧
      (loadData opts attempt cache now prev (.error err)).state.retryCount =
        opts.maxRetries) := by
  constructor
  · intro h
    simp [loadData, hnohit, h]
  · intro h
    have h' : ¬ attempt < opts.maxRetries := by omega
    simp [loadData, hnohit, h']

/-- Witness for `loadData_failure_spec`: the non-recoverable
`parseFailure` at attempts 1 (schedules a retry) and 3 (fails). -/
theorem loadData_failure_spec_witness :
    cacheHit defaultUseDatasetOptions none 0 1 = false ∧
    (1 < defaultUseDatasetOptions.maxRetries ∧
      (loadData defaultUseDatasetOptions 1 none 0 emptyHookState
        (.error parseFailure)).retryScheduled =
        some (calculateRetryDelay defaultUseDatasetOptions 1, 2)) ∧
    (defaultUseDatasetOptions.maxRetries ≤ 3 ∧
      (loadData defaultUseDatasetOptions 3 none 0 emptyHookState
        (.error parseFailure)).retryScheduled = none ∧
      (loadData defaultUseDatasetOptions 3 none 0 emptyHookState
        (.error parseFailure)).state.data = none ∧
      (loadData defaultUseDatasetOptions 3 none 0 emptyHookState
        (.error parseFailure)).state.error = some parseFailure.message ∧
      (loadData defaultUseDatasetOptions 3 none 0 emptyHookState
        (.error parseFailure)).state.retryCount = defaultUseDatasetOptions.maxRetries) :=
  ⟨by decide,
   ⟨by decide,
    ((loadData_failure_spec defaultUseDatasetOptions 1 none 0 emptyHookState
      parseFailure (by decide)).1 (by decide)).1⟩,
   ⟨by decide,
    by
      have h := (loadData_failure_spec defaultUseDatasetOptions 3 none 0 emptyHookState
        parseFailure (by decide)).2 (by decide)
      exact ⟨h.1, h.2.1, h.2.2.1, h.2.2.2⟩⟩⟩

/-- C7: `loadDatasets` on a collection whose envelope validation
reports any error fails with a non-recoverable `VALIDATION_ERROR`
(before any record filtering), and on a valid envelope all of whose
records are filtered out fails with a recoverable
`VALIDATION_ERROR`. -/
theorem loadDatasetsFromData_validation_spec (data : RawCollection) :
    ((validateDatasetCollectionDetailed data).isValid = false →
      loadDatasetsFromData data =
        .error { message := ERROR_MESSAGES .VALIDATION_ERROR
                 code := some .VALIDATION_ERROR, recoverable := false }) ∧
    ((validateDatasetCollectionDetailed data).isValid = true →
      (filterValidDatasets (collectionDatasets data)).valid = [] →
      loadDatasetsFromData data =
        .error { message := "No valid datasets found. Using fallback data."
                 code := some .VALIDATION_ERROR, recoverable := true }) := by
  constructor
  · intro h
    simp [loadDatasetsFromData, h]
  · intro h hempty
    simp [loadDatasetsFromData, h, hempty]

/-- Witness for `loadDatasetsFromData_validation_spec`: a non-object
document (invalid envelope) and `invalidRecordsCollection` (valid
envelope, no surviving record). -/
theorem loadDatasetsFromData_validation_spec_witness :
    ((validateDatasetCollectionDetailed .notObject).isValid = false ∧
      loadDatasetsFromData .notObject =
        .error { message := ERROR_MESSAGES .VALIDATION_ERROR
                 code := some .VALIDATION_ERROR, recoverable := false }) ∧
    ((validateDatasetCollectionDetailed invalidRecordsCollection).isValid = true ∧
      (filterValidDatasets (collectionDatasets invalidRecordsCollection)).valid = [] ∧
      loadDatasetsFromData invalidRecordsCollection =
        .error { message := "No valid datasets found. Using fallback data."
                 code := some .VALIDATION_ERROR, recoverable := true }) :=
  ⟨⟨by decide, (loadDatasetsFromData_validation_spec .notObject).1 (by decide)⟩,
   ⟨by decide, by decide,
    (loadDatasetsFromData_validation_spec invalidRecordsCollection).2
      (by decide) (by decide)⟩⟩

/-- C8: `checkFileExists` is a total boolean function of the filename
and the probe outcome (the `try`/`catch` maps every failure to
`false`); it returns `true` exactly when the filename is non-empty,
ends in `.csv` (so path resolution does not throw) and the HEAD probe
resolves within the 5000 ms timeout with an ok status. -/
theorem checkFileExists_spec (filename : String) (probe : ProbeOutcome) :
    checkFileExists filename probe = true ↔
      filename ≠ "" ∧ csvPattern filename = true ∧
      ∃ t, t < FILE_CHECK_TIMEOUT_MS ∧ probe = .responds t true := by
  unfold checkFileExists getAssetPath raceProbe
  by_cases h0 : filename = ""
  · simp [h0]
  · by_cases h1 : csvPattern filename
    · cases probe with
      | responds t ok =>
          by_cases h2 : t < FILE_CHECK_TIMEOUT_MS
          · cases ok <;> simp [h0, h1, h2]
          · simp [h0, h1, h2]
            intro t' ht' he
            omega
      | fails t =>
          by_cases h2 : t < FILE_CHECK_TIMEOUT_MS <;> simp [h0, h1, h2]
    · simp [h0, h1]

/-- C10: the fallback set has exactly one record, that record
validates with zero errors, filtering it keeps it, and so
`attemptRecovery` succeeds with the fallback set for every
recoverable original error, whatever the emergency cache holds. -/
theorem attemptRecovery_fallback_spec :
    getFallbackDatasets.length = 1 ∧
    (∀ d ∈ getFallbackDatasets,
      (validateDatasetDetailed d "dataset").errors = [] ∧
      (validateDatasetDetailed d "dataset").isValid = true) ∧
    (filterValidDatasets getFallbackDatasets).valid = getFallbackDatasets ∧
    (∀ (e : DataLoaderError) (c : Option (List (Option RawDataset))),
      e.recoverable = true → attemptRecovery e c = .ok getFallbackDatasets) := by
  refine ⟨by decide, by decide, by decide, ?_⟩
  intro e c h
  have hv : (filterValidDatasets getFallbackDatasets).valid = getFallbackDatasets := by
    decide
  have hlen : 0 < (filterValidDatasets getFallbackDatasets).valid.length := by
    rw [hv]; decide
  simp [attemptRecovery, h, hlen, hv]
  intro hcontra
  exact absurd hcontra (by decide)

/-- Witness for `attemptRecovery_fallback_spec`: a recoverable
timeout error recovers to the fallback set with no emergency cache. -/
theorem attemptRecovery_fallback_spec_witness :
    (DataLoaderError.mk (ERROR_MESSAGES .TIMEOUT_ERROR) (some .TIMEOUT_ERROR)
        true).recoverable = true ∧
    attemptRecovery
      (DataLoaderError.mk (ERROR_MESSAGES .TIMEOUT_ERROR) (some .TIMEOUT_ERROR) true)
      none = .ok getFallbackDatasets :=
  ⟨by decide,
   attemptRecovery_fallback_spec.2.2.2
     (DataLoaderError.mk (ERROR_MESSAGES .TIMEOUT_ERROR) (some .TIMEOUT_ERROR) true)
     none (by decide)⟩

/-- Every error a `fieldValidations` row pushes names its field. -/
theorem requiredStringField_field_err (name : String) (v : JSValue)
    (minL maxL : Option Nat) (pat : Option (String → Bool)) (patMsg : String) :
    ∀ e ∈ (requiredStringField name v minL maxL pat patMsg).1, e.field = name := by
  cases v <;> rcases minL with _ | m <;> rcases pat with _ | p <;>
    simp [requiredStringField] <;> split_ifs <;> simp

/-- Every warning a `fieldValidations` row pushes names its field. -/
theorem requiredStringField_field_warn (name : String) (v : JSValue)
    (minL maxL : Option Nat) (pat : Option (String → Bool)) (patMsg : String) :
    ∀ e ∈ (requiredStringField name v minL maxL pat patMsg).2, e.field = name := by
  cases v <;> rcases maxL with _ | m <;>
    simp [requiredStringField] <;> split_ifs <;> simp

/-- Every `postalCodeCount` error names `postalCodeCount`. -/
theorem pccCheck_field_err (v : JSValue) :
    ∀ e ∈ (pccCheck v).1, e.field = "postalCodeCount" := by
  cases v with
  | num q => simp only [pccCheck]; split_ifs <;> simp
  | undef => simp [pccCheck]
  | null => simp [pccCheck]
  | str s => simp [pccCheck]
  | boolean b => simp [pccCheck]

/-- Every `postalCodeCount` warning names `postalCodeCount`. -/
theorem pccCheck_field_warn (v : JSValue) :
    ∀ e ∈ (pccCheck v).2, e.field = "postalCodeCount" := by
  cases v with
  | num q => simp only [pccCheck]; split_ifs <;> simp
  | undef => simp [pccCheck]
  | null => simp [pccCheck]
  | str s => simp [pccCheck]
  | boolean b => simp [pccCheck]

/-- Every `status` error names `status`. -/
theorem statusCheck_field_err (v : JSValue) :
    ∀ e ∈ (statusCheck v).1, e.field = "status" := by
  cases v with
  | str s => simp only [statusCheck]; split_ifs <;> simp
  | undef => simp [statusCheck]
  | null => simp [statusCheck]
  | num q => simp [statusCheck]
  | boolean b => simp [statusCheck]

/-- The error list of the record validator is the concatenation of the
per-field check results, in source order. -/
theorem validateDatasetFields_errors_eq (r : RawDataset) :
    (validateDatasetFields r).errors =
      (idCheck r.id).1 ++ (countryNameCheck r.countryName).1 ++
      (countryCodeCheck r.countryCode).1 ++ (regionCheck r.region).1 ++
      (sampleFileNameCheck r.sampleFileName).1 ++ (pccCheck r.postalCodeCount).1 ++
      (statusCheck r.status).1 := rfl

/-- The warning list of the record validator is the concatenation of
the per-field check results, in source order. -/
theorem validateDatasetFields_warns_eq (r : RawDataset) :
    (validateDatasetFields r).warnings =
      (idCheck r.id).2 ++ (countryNameCheck r.countryName).2 ++
      (countryCodeCheck r.countryCode).2 ++ (regionCheck r.region).2 ++
      (sampleFileNameCheck r.sampleFileName).2 ++ (pccCheck r.postalCodeCount).2 ++
      (statusCheck r.status).2 := rfl

/-- The record validator's verdict is emptiness of its error list. -/
theorem validateDatasetFields_isValid_eq (r : RawDataset) :
    (validateDatasetFields r).isValid = (validateDatasetFields r).errors.isEmpty := rfl

/-- A record with any error is judged invalid. -/
theorem isValid_false_of_mem_errors (r : RawDataset) (e : ValidationError)
    (he : e ∈ (validateDatasetFields r).errors) :
    (validateDatasetFields r).isValid = false := by
  have h := List.ne_nil_of_mem he
  rw [validateDatasetFields_isValid_eq]
  cases hl : (validateDatasetFields r).errors with
  | nil => exact absurd hl h
  | cons a t => rfl

/-- Every error of the record validator names one of the seven record
fields; a `postalCodeCount` error moreover comes from `pccCheck`. -/
theorem validateDatasetFields_mem_field (r : RawDataset) (e : ValidationError)
    (he : e ∈ (validateDatasetFields r).errors) :
    e.field = "id" ∨ e.field = "countryName" ∨ e.field = "countryCode" ∨
    e.field = "region" ∨ e.field = "sampleFileName" ∨
    (e ∈ (pccCheck r.postalCodeCount).1 ∧ e.field = "postalCodeCount") ∨
    e.field = "status" := by
  rw [validateDatasetFields_errors_eq] at he
  simp only [List.mem_append] at he
  rcases he with ((((((h | h) | h) | h) | h) | h) | h)
  · exact Or.inl (requiredStringField_field_err _ _ _ _ _ _ e h)
  · exact Or.inr (Or.inl (requiredStringField_field_err _ _ _ _ _ _ e h))
  · exact Or.inr (Or.inr (Or.inl (requiredStringField_field_err _ _ _ _ _ _ e h)))
  · exact Or.inr (Or.inr (Or.inr (Or.inl (requiredStringField_field_err _ _ _ _ _ _ e h))))
  · exact Or.inr (Or.inr (Or.inr (Or.inr (Or.inl
      (requiredStringField_field_err _ _ _ _ _ _ e h)))))
  · exact Or.inr (Or.inr (Or.inr (Or.inr (Or.inr (Or.inl
      ⟨h, pccCheck_field_err _ e h⟩)))))
  · exact Or.inr (Or.inr (Or.inr (Or.inr (Or.inr (Or.inr
      (statusCheck_field_err _ e h))))))

/-- Errors of the `postalCodeCount` check are errors of the whole
record validator. -/
theorem pccCheck_err_sub (r : RawDataset) :
    ∀ e ∈ (pccCheck r.postalCodeCount).1, e ∈ (validateDatasetFields r).errors := by
  intro e h
  rw [validateDatasetFields_errors_eq]
  simp only [List.mem_append]
  tauto

/-- Warnings of the `postalCodeCount` check are warnings of the whole
record validator. -/
theorem pccCheck_warn_sub (r : RawDataset) :
    ∀ e ∈ (pccCheck r.postalCodeCount).2, e ∈ (validateDatasetFields r).warnings := by
  intro e h
  rw [validateDatasetFields_warns_eq]
  simp only [List.mem_append]
  tauto

/-- C5: `validateDatasetDetailed` errors on a missing, non-number,
non-integer or non-positive `postalCodeCount` (with an error naming
that field), accepts the value 1 with no `postalCodeCount` error, and
for an integer value above 10,000,000 produces no error but a
`postalCodeCount` warning. -/
theorem validateDatasetDetailed_postalCodeCount_spec (r : RawDataset) (path : String) :
    ((r.postalCodeCount = .undef ∨ r.postalCodeCount = .null ∨
      (∀ q : ℚ, r.postalCodeCount ≠ .num q) ∨
      (∃ q : ℚ, r.postalCodeCount = .num q ∧ q.den ≠ 1) ∨
      (∃ q : ℚ, r.postalCodeCount = .num q ∧ q.den = 1 ∧ q ≤ 0)) →
      ∃ e ∈ (validateDatasetDetailed (some r) path).errors,
        e.field = "postalCodeCount") ∧
    (r.postalCodeCount = .num 1 →
      ∀ e ∈ (validateDatasetDetailed (some r) path).errors,
        e.field ≠ "postalCodeCount") ∧
    (∀ q : ℚ, r.postalCodeCount = .num q → q.den = 1 → 10000000 < q →
      (∀ e ∈ (validateDatasetDetailed (some r) path).errors,
        e.field ≠ "postalCodeCount") ∧
      ∃ w ∈ (validateDatasetDetailed (some r) path).warnings,
        w.field = "postalCodeCount") := by
  refine ⟨?_, ?_, ?_⟩
  · intro h
    have hne : (pccCheck r.postalCodeCount).1 ≠ [] := by
      rcases h with h | h | h | ⟨q, hq, hden⟩ | ⟨q, hq, hden, hle⟩
      · rw [h]; simp [pccCheck]
      · rw [h]; simp [pccCheck]
      · cases hv : r.postalCodeCount with
        | num q => exact absurd hv (h q)
        | undef => simp [pccCheck]
        | null => simp [pccCheck]
        | str s => simp [pccCheck]
        | boolean b => simp [pccCheck]
      · rw [hq]; simp [pccCheck, hden]
      · rw [hq]; simp [pccCheck, hden, hle]
    obtain ⟨e, he⟩ := List.exists_mem_of_ne_nil _ hne
    exact ⟨e, pccCheck_err_sub r e he, pccCheck_field_err _ e he⟩
  · intro h1 e he
    rcases validateDatasetFields_mem_field r e he with
      hf | hf | hf | hf | hf | ⟨hmem, hf⟩ | hf
    · rw [hf]; decide
    · rw [hf]; decide
    · rw [hf]; decide
    · rw [hf]; decide
    · rw [hf]; decide
    · rw [h1] at hmem
      have hempty : (pccCheck (.num 1)).1 = [] := by decide
      rw [hempty] at hmem
      exact absurd hmem (List.not_mem_nil e)
    · rw [hf]; decide
  · intro q hq hden hgt
    have h0 : ¬ q ≤ 0 := by
      intro hle
      have : (0 : ℚ) < 10000000 := by norm_num
      linarith
    have hempty : (pccCheck (.num q)).1 = [] := by
      simp [pccCheck, hden, h0, hgt]
    constructor
    · intro e he
      rcases validateDatasetFields_mem_field r e he with
        hf | hf | hf | hf | hf | ⟨hmem, hf⟩ | hf
      · rw [hf]; decide
      · rw [hf]; decide
      · rw [hf]; decide
      · rw [hf]; decide
      · rw [hf]; decide
      · rw [hq, hempty] at hmem
        exact absurd hmem (List.not_mem_nil e)
      · rw [hf]; decide
    · refine ⟨⟨"postalCodeCount",
        "Field \"postalCodeCount\" seems unusually high (>10M)"⟩, ?_, rfl⟩
      apply pccCheck_warn_sub
      rw [hq]
      simp [pccCheck, hden, h0, hgt]

/-- Witness for `validateDatasetDetailed_postalCodeCount_spec` at the
values 0 (error), 1 (no error) and 10,000,001 (warning only). -/
theorem validateDatasetDetailed_postalCodeCount_spec_witness :
    (∃ e ∈ (validateDatasetDetailed
        (some { usDataset with postalCodeCount := .num 0 }) "dataset").errors,
      e.field = "postalCodeCount") ∧
    (∀ e ∈ (validateDatasetDetailed
        (some { usDataset with postalCodeCount := .num 1 }) "dataset").errors,
      e.field ≠ "postalCodeCount") ∧
    ((∀ e ∈ (validateDatasetDetailed
        (some { usDataset with postalCodeCount := .num 10000001 }) "dataset").errors,
      e.field ≠ "postalCodeCount") ∧
     ∃ w ∈ (validateDatasetDetailed
        (some { usDataset with postalCodeCount := .num 10000001 }) "dataset").warnings,
      w.field = "postalCodeCount") :=
  ⟨(validateDatasetDetailed_postalCodeCount_spec
      { usDataset with postalCodeCount := .num 0 } "dataset").1
      (Or.inr (Or.inr (Or.inr (Or.inr ⟨0, rfl, by decide, by decide⟩)))),
   (validateDatasetDetailed_postalCodeCount_spec
      { usDataset with postalCodeCount := .num 1 } "dataset").2.1 rfl,
   (validateDatasetDetailed_postalCodeCount_spec
      { usDataset with postalCodeCount := .num 10000001 } "dataset").2.2
      10000001 rfl (by decide) (by norm_num)⟩

/-- C6: a record missing any of the seven required fields is judged
invalid with an error naming that field, and a record passes
(`isValid = true`) exactly when its error list is empty — the
warnings play no part in the verdict. -/
theorem validateDatasetDetailed_required_fields_spec :
    (∀ (r : RawDataset) (path : String),
      ((r.id = .undef ∨ r.id = .null) →
        (∃ e ∈ (validateDatasetDetailed (some r) path).errors, e.field = "id") ∧
        (validateDatasetDetailed (some r) path).isValid = false) ∧
      ((r.countryName = .undef ∨ r.countryName = .null) →
        (∃ e ∈ (validateDatasetDetailed (some r) path).errors, e.field = "countryName") ∧
        (validateDatasetDetailed (some r) path).isValid = false) ∧
      ((r.countryCode = .undef ∨ r.countryCode = .null) →
        (∃ e ∈ (validateDatasetDetailed (some r) path).errors, e.field = "countryCode") ∧
        (validateDatasetDetailed (some r) path).isValid = false) ∧
      ((r.postalCodeCount = .undef ∨ r.postalCodeCount = .null) →
        (∃ e ∈ (validateDatasetDetailed (some r) path).errors,
          e.field = "postalCodeCount") ∧
        (validateDatasetDetailed (some r) path).isValid = false) ∧
      ((r.region = .undef ∨ r.region = .null) →
        (∃ e ∈ (validateDatasetDetailed (some r) path).errors, e.field = "region") ∧
        (validateDatasetDetailed (some r) path).isValid = false) ∧
      ((r.status = .undef ∨ r.status = .null) →
        (∃ e ∈ (validateDatasetDetailed (some r) path).errors, e.field = "status") ∧
        (validateDatasetDetailed (some r) path).isValid = false) ∧
      ((r.sampleFileName = .undef ∨ r.sampleFileName = .null) →
        (∃ e ∈ (validateDatasetDetailed (some r) path).errors,
          e.field = "sampleFileName") ∧
        (validateDatasetDetailed (some r) path).isValid = false)) ∧
    (∀ (d : Option RawDataset) (path : String),
      (validateDatasetDetailed d path).isValid = true ↔
        (validateDatasetDetailed d path).errors = []) := by
  constructor
  · intro r path
    refine ⟨?_, ?_, ?_, ?_, ?_, ?_, ?_⟩
    · intro h
      have hch : (idCheck r.id).1 =
          [⟨"id", "Required field \"id\" is missing"⟩] := by
        rcases h with h | h <;> rw [h] <;> decide
      have hm : (⟨"id", "Required field \"id\" is missing"⟩ :
          ValidationError) ∈ (validateDatasetFields r).errors := by
        rw [validateDatasetFields_errors_eq, hch]
        simp
      exact ⟨⟨_, hm, rfl⟩, isValid_false_of_mem_errors r _ hm⟩
    · intro h
      have hch : (countryNameCheck r.countryName).1 =
          [⟨"countryName", "Required field \"countryName\" is missing"⟩] := by
        rcases h with h | h <;> rw [h] <;> decide
      have hm : (⟨"countryName", "Required field \"countryName\" is missing"⟩ :
          ValidationError) ∈ (validateDatasetFields r).errors := by
        rw [validateDatasetFields_errors_eq, hch]
        simp
      exact ⟨⟨_, hm, rfl⟩, isValid_false_of_mem_errors r _ hm⟩
    · intro h
      have hch : (countryCodeCheck r.countryCode).1 =
          [⟨"countryCode", "Required field \"countryCode\" is missing"⟩] := by
        rcases h with h | h <;> rw [h] <;> decide
      have hm : (⟨"countryCode", "Required field \"countryCode\" is missing"⟩ :
          ValidationError) ∈ (validateDatasetFields r).errors := by
        rw [validateDatasetFields_errors_eq, hch]
        simp
      exact ⟨⟨_, hm, rfl⟩, isValid_false_of_mem_errors r _ hm⟩
    · intro h
      have hm : (⟨"postalCodeCount", "Required field \"postalCodeCount\" is missing"⟩ :
          ValidationError) ∈ (validateDatasetFields r).errors := by
        rw [validateDatasetFields_errors_eq]
        rcases h with h | h <;> simp [pccCheck, h]
      exact ⟨⟨_, hm, rfl⟩, isValid_false_of_mem_errors r _ hm⟩
    · intro h
      have hch : (regionCheck r.region).1 =
          [⟨"region", "Required field \"region\" is missing"⟩] := by
        rcases h with h | h <;> rw [h] <;> decide
      have hm : (⟨"region", "Required field \"region\" is missing"⟩ :
          ValidationError) ∈ (validateDatasetFields r).errors := by
        rw [validateDatasetFields_errors_eq, hch]
        simp
      exact ⟨⟨_, hm, rfl⟩, isValid_false_of_mem_errors r _ hm⟩
    · intro h
      have hm : (⟨"status", "Required field \"status\" is missing"⟩ :
          ValidationError) ∈ (validateDatasetFields r).errors := by
        rw [validateDatasetFields_errors_eq]
        rcases h with h | h <;> simp [statusCheck, h]
      exact ⟨⟨_, hm, rfl⟩, isValid_false_of_mem_errors r _ hm⟩
    · intro h
      have hch : (sampleFileNameCheck r.sampleFileName).1 =
          [⟨"sampleFileName", "Required field \"sampleFileName\" is missing"⟩] := by
        rcases h with h | h <;> rw [h] <;> decide
      have hm : (⟨"sampleFileName", "Required field \"sampleFileName\" is missing"⟩ :
          ValidationError) ∈ (validateDatasetFields r).errors := by
        rw [validateDatasetFields_errors_eq, hch]
        simp
      exact ⟨⟨_, hm, rfl⟩, isValid_false_of_mem_errors r _ hm⟩
  · intro d path
    cases d with
    | none => simp [validateDatasetDetailed]
    | some r =>
        rw [show validateDatasetDetailed (some r) path = validateDatasetFields r from rfl,
          validateDatasetFields_isValid_eq]
        exact List.isEmpty_iff

/-- Witness for `validateDatasetDetailed_required_fields_spec`: a
record with `id` removed fails naming `id`; a record whose only flaw
is an over-large `postalCodeCount` passes with a non-empty warning
list. -/
theorem validateDatasetDetailed_required_fields_spec_witness :
    (∃ e ∈ (validateDatasetDetailed
        (some { usDataset with id := .undef }) "dataset").errors, e.field = "id") ∧
    (validateDatasetDetailed (some { usDataset with id := .undef }) "dataset").isValid
      = false ∧
    ((validateDatasetDetailed
        (some { usDataset with postalCodeCount := .num 10000001 }) "dataset").isValid
        = true ↔
      (validateDatasetDetailed
        (some { usDataset with postalCodeCount := .num 10000001 }) "dataset").errors
        = []) ∧
    (validateDatasetDetailed
        (some { usDataset with postalCodeCount := .num 10000001 }) "dataset").warnings
      ≠ [] :=
  ⟨((validateDatasetDetailed_required_fields_spec.1
      { usDataset with id := .undef } "dataset").1 (Or.inl rfl)).1,
   ((validateDatasetDetailed_required_fields_spec.1
      { usDataset with id := .undef } "dataset").1 (Or.inl rfl)).2,
   validateDatasetDetailed_required_fields_spec.2
      (some { usDataset with postalCodeCount := .num 10000001 }) "dataset",
   by decide⟩

/-- The `valid` side of the filter loop keeps exactly the records the
validator accepts, in input order. -/
theorem filterGo_valid_eq (l : List (Option RawDataset)) :
    ∀ i, (filterGo i l).1 = l.filter recValid := by
  induction l with
  | nil => intro i; rfl
  | cons d rest ih =>
      intro i
      simp only [filterGo, List.filter]
      rw [validateDatasetDetailed_isValid_path]
      cases h : recValid d <;> simp [h, ih]

/-- The records on the `invalid` side of the filter loop are exactly
the rejected ones, in input order. -/
theorem filterGo_invalid_fst (l : List (Option RawDataset)) :
    ∀ i, ((filterGo i l).2).map Prod.fst = l.filter (fun d => !(recValid d)) := by
  induction l with
  | nil => intro i; rfl
  | cons d rest ih =>
      intro i
      simp only [filterGo, List.filter]
      rw [validateDatasetDetailed_isValid_path]
      cases h : recValid d <;> simp [h, ih]

/-- Every input record lands on exactly one side of the filter
loop. -/
theorem filterGo_length (l : List (Option RawDataset)) :
    ∀ i, (filterGo i l).1.length + (filterGo i l).2.length = l.length := by
  induction l with
  | nil => intro i; rfl
  | cons d rest ih =>
      intro i
      simp only [filterGo]
      rw [validateDatasetDetailed_isValid_path]
      cases h : recValid d <;> simp [h] <;> rw [← ih (i + 1)] <;> omega

/-- Every `invalid` entry of the filter loop is a rejected record
paired with its own validation errors; those errors are non-empty and
(for an object record) each names one of the seven record fields. -/
theorem filterGo_invalid_spec (l : List (Option RawDataset)) :
    ∀ i, ∀ p ∈ (filterGo i l).2,
      recValid p.1 = false ∧ p.2 ≠ [] ∧
      (∃ j : Nat, p.2 = (validateDatasetDetailed p.1 s!"dataset[{j}]").errors) ∧
      (∀ r, p.1 = some r → ∀ e ∈ p.2,
        e.field = "id" ∨ e.field = "countryName" ∨ e.field = "countryCode" ∨
        e.field = "region" ∨ e.field = "sampleFileName" ∨
        e.field = "postalCodeCount" ∨ e.field = "status") := by
  induction l with
  | nil => intro i p hp; exact absurd hp (List.not_mem_nil p)
  | cons d rest ih =>
      intro i p hp
      simp only [filterGo] at hp
      by_cases h : recValid d
      · rw [show (validateDatasetDetailed d s!"dataset[{i}]").isValid = recValid d from
          validateDatasetDetailed_isValid_path d _] at hp
        simp only [h, if_true] at hp
        exact ih (i + 1) p hp
      · rw [show (validateDatasetDetailed d s!"dataset[{i}]").isValid = recValid d from
          validateDatasetDetailed_isValid_path d _] at hp
        simp only [h, Bool.false_eq_true, if_false, List.mem_cons] at hp
        rcases hp with hp | hp
        · subst hp
          have hb : recValid d = false := by
            cases hr : recValid d
            · rfl
            · exact absurd hr h
          refine ⟨hb, ?_, ⟨i, rfl⟩, ?_⟩
          · have hne : (validateDatasetDetailed d s!"dataset[{i}]").errors ≠ [] := by
              intro hnil
              have h1 := validateDatasetDetailed_isValid_eq d s!"dataset[{i}]"
              rw [validateDatasetDetailed_isValid_path, hnil] at h1
              rw [hb] at h1
              exact absurd h1.symm (by decide)
            exact hne
          · intro r hr e he
            simp only at hr he
            rw [hr] at he
            rcases validateDatasetFields_mem_field r e he with
              hf | hf | hf | hf | hf | ⟨_, hf⟩ | hf <;> tauto
        · exact ih (i + 1) p hp

/-- C4: `filterValidDatasets` is a pure partition of the input: the
accepted records in input order on the `valid` side, the rejected
records in input order on the `invalid` side each paired with its
non-empty validation error list (each error naming a record field),
with the two sides' lengths summing to `totalProcessed`, the input
length. -/
theorem filterValidDatasets_partition (l : List (Option RawDataset)) :
    (filterValidDatasets l).valid = l.filter recValid ∧
    ((filterValidDatasets l).invalid).map Prod.fst =
      l.filter (fun d => !(recValid d)) ∧
    (filterValidDatasets l).valid.length + (filterValidDatasets l).invalid.length
      = l.length ∧
    (filterValidDatasets l).totalProcessed = l.length ∧
    (∀ d ∈ (filterValidDatasets l).valid, recValid d = true) ∧
    (∀ p ∈ (filterValidDatasets l).invalid,
      recValid p.1 = false ∧ p.2 ≠ [] ∧
      (∃ j : Nat, p.2 = (validateDatasetDetailed p.1 s!"dataset[{j}]").errors) ∧
      (∀ r, p.1 = some r → ∀ e ∈ p.2,
        e.field = "id" ∨ e.field = "countryName" ∨ e.field = "countryCode" ∨
        e.field = "region" ∨ e.field = "sampleFileName" ∨
        e.field = "postalCodeCount" ∨ e.field = "status")) := by
  refine ⟨filterGo_valid_eq l 0, filterGo_invalid_fst l 0, filterGo_length l 0, rfl,
    ?_, filterGo_invalid_spec l 0⟩
  intro d hd
  rw [show (filterValidDatasets l).valid = l.filter recValid from filterGo_valid_eq l 0]
    at hd
  exact List.of_mem_filter hd

/-- An individually valid record has a truthy (non-empty string)
`id`: the `id` pattern demands at least one character. -/
theorem valid_id_truthy (r : RawDataset)
    (hv : (validateDatasetFields r).isValid = true) : jsTruthy r.id = true := by
  have herr : (validateDatasetFields r).errors = [] := by
    rw [validateDatasetFields_isValid_eq] at hv
    exact List.isEmpty_iff.mp hv
  rw [validateDatasetFields_errors_eq] at herr
  simp only [List.append_eq_nil] at herr
  have hid : (idCheck r.id).1 = [] := herr.1.1.1.1.1.1
  cases hvv : r.id with
  | undef => rw [hvv] at hid; exact absurd hid (by decide)
  | null => rw [hvv] at hid; exact absurd hid (by decide)
  | num q => rw [hvv] at hid; simp [idCheck, requiredStringField] at hid
  | boolean b => rw [hvv] at hid; simp [idCheck, requiredStringField] at hid
  | str s =>
      rw [hvv] at hid
      simp only [idCheck, requiredStringField] at hid
      by_cases hb : isBlank s
      · simp [hb] at hid
      · simp only [hb, if_false, Bool.false_eq_true] at hid
        by_cases hp : idPattern s
        · have hlen : s.length ≠ 0 := by
            simp [idPattern] at hp
            intro hcontra
            rw [hcontra] at hp
            exact absurd hp.1 (by decide)
          simp only [jsTruthy, decide_eq_true_eq]
          intro hcontra
          rw [hcontra] at hlen
          exact hlen rfl
        · simp [hp] at hid

/-- An individually valid record has a truthy (non-empty string)
`countryCode`: the pattern demands exactly two characters. -/
theorem valid_code_truthy (r : RawDataset)
    (hv : (validateDatasetFields r).isValid = true) :
    jsTruthy r.countryCode = true := by
  have herr : (validateDatasetFields r).errors = [] := by
    rw [validateDatasetFields_isValid_eq] at hv
    exact List.isEmpty_iff.mp hv
  rw [validateDatasetFields_errors_eq] at herr
  simp only [List.append_eq_nil] at herr
  have hcc : (countryCodeCheck r.countryCode).1 = [] := herr.1.1.1.1.2
  cases hvv : r.countryCode with
  | undef => rw [hvv] at hcc; exact absurd hcc (by decide)
  | null => rw [hvv] at hcc; exact absurd hcc (by decide)
  | num q => rw [hvv] at hcc; simp [countryCodeCheck, requiredStringField] at hcc
  | boolean b => rw [hvv] at hcc; simp [countryCodeCheck, requiredStringField] at hcc
  | str s =>
      rw [hvv] at hcc
      simp only [countryCodeCheck, requiredStringField] at hcc
      by_cases hb : isBlank s
      · simp [hb] at hcc
      · simp only [hb, if_false, Bool.false_eq_true] at hcc
        by_cases hp : countryCodePattern s
        · have hlen : s.length = 2 := by
            simp [countryCodePattern] at hp
            exact hp.1
          simp only [jsTruthy, decide_eq_true_eq]
          intro hcontra
          rw [hcontra] at hlen
          exact absurd hlen (by decide)
        · simp [hp] at hcc

/-- An individually valid record contributes no errors. -/
theorem valid_errors_nil (r : RawDataset)
    (hv : (validateDatasetFields r).isValid = true) :
    (validateDatasetFields r).errors = [] := by
  rw [validateDatasetFields_isValid_eq] at hv
  exact List.isEmpty_iff.mp hv

/-- Collected errors survive a schema-scan step. -/
theorem schemaStep_errors_sub (i : Nat) (d : Option RawDataset) (st : SchemaState)
    (e : ValidationError) (he : e ∈ st.errors) : e ∈ (schemaStep i d st).errors := by
  cases d with
  | none => simp [schemaStep, List.mem_append, he]
  | some r =>
      simp only [schemaStep]
      split_ifs <;> simp [List.mem_append, he]

/-- Collected warnings survive a schema-scan step. -/
theorem schemaStep_warns_sub (i : Nat) (d : Option RawDataset) (st : SchemaState)
    (e : ValidationError) (he : e ∈ st.warnings) : e ∈ (schemaStep i d st).warnings := by
  cases d with
  | none => simp [schemaStep, List.mem_append, he]
  | some r =>
      simp only [schemaStep]
      split_ifs <;> simp [List.mem_append, he]

/-- Remembered `id` values survive a schema-scan step. -/
theorem schemaStep_ids_sub (i : Nat) (d : Option RawDataset) (st : SchemaState)
    (v : JSValue) (hv : v ∈ st.datasetIds) : v ∈ (schemaStep i d st).datasetIds := by
  cases d with
  | none => simp [schemaStep, hv]
  | some r =>
      simp only [schemaStep]
      split_ifs <;> simp [List.mem_append, hv]

/-- Remembered `countryCode` values survive a schema-scan step. -/
theorem schemaStep_codes_sub (i : Nat) (d : Option RawDataset) (st : SchemaState)
    (v : JSValue) (hv : v ∈ st.countryCodes) : v ∈ (schemaStep i d st).countryCodes := by
  cases d with
  | none => simp [schemaStep, hv]
  | some r =>
      simp only [schemaStep]
      split_ifs <;> simp [List.mem_append, hv]

/-- Collected errors survive the remainder of the schema scan. -/
theorem schemaFold_errors_sub (l : List (Option RawDataset)) :
    ∀ (i : Nat) (st : SchemaState) (e : ValidationError),
      e ∈ st.errors → e ∈ (schemaFold i l st).errors := by
  induction l with
  | nil => intro i st e he; exact he
  | cons d rest ih =>
      intro i st e he
      exact ih (i + 1) _ e (schemaStep_errors_sub i d st e he)

/-- Collected warnings survive the remainder of the schema scan. -/
theorem schemaFold_warns_sub (l : List (Option RawDataset)) :
    ∀ (i : Nat) (st : SchemaState) (e : ValidationError),
      e ∈ st.warnings → e ∈ (schemaFold i l st).warnings := by
  induction l with
  | nil => intro i st e he; exact he
  | cons d rest ih =>
      intro i st e he
      exact ih (i + 1) _ e (schemaStep_warns_sub i d st e he)

/-- How a schema-scan step treats an individually valid record: a
seen `id` yields the duplicate error, an unseen one is remembered; a
seen `countryCode` yields the duplicate warning, an unseen one is
remembered; the record's own warnings are appended either way. -/
theorem schemaStep_some_valid (i : Nat) (r : RawDataset) (st : SchemaState)
    (hv : (validateDatasetFields r).isValid = true) :
    (schemaStep i (some r) st).errors =
      (if r.id ∈ st.datasetIds then
        st.errors ++ [⟨"id", "Duplicate dataset ID found"⟩] else st.errors) ∧
    (schemaStep i (some r) st).datasetIds =
      (if r.id ∈ st.datasetIds then st.datasetIds else st.datasetIds ++ [r.id]) ∧
    (schemaStep i (some r) st).warnings =
      ((st.warnings ++ (validateDatasetFields r).warnings) ++
        (if r.countryCode ∈ st.countryCodes then
          [⟨"countryCode", "Duplicate country code found"⟩] else [])) ∧
    (schemaStep i (some r) st).countryCodes =
      (if r.countryCode ∈ st.countryCodes then
        st.countryCodes else st.countryCodes ++ [r.countryCode]) := by
  have ht := valid_id_truthy r hv
  have htc := valid_code_truthy r hv
  have hnil := valid_errors_nil r hv
  simp only [schemaStep]
  rw [show validateDatasetDetailed (some r) s!"datasets[{i}]" =
    validateDatasetFields r from rfl]
  simp only [hv, ht, htc, hnil, Bool.and_self, if_true, List.append_nil]
  split_ifs <;> simp_all

/-- If a valid record whose `id` is already remembered lies ahead in
the scan, the duplicate-`id` error is raised. -/
theorem schemaFold_dup_id (l2 : List (Option RawDataset)) :
    ∀ (l3 : List (Option RawDataset)) (r2 : RawDataset) (i : Nat) (st : SchemaState),
      (validateDatasetFields r2).isValid = true →
      r2.id ∈ st.datasetIds →
      (⟨"id", "Duplicate dataset ID found"⟩ : ValidationError) ∈
        (schemaFold i (l2 ++ some r2 :: l3) st).errors := by
  induction l2 with
  | nil =>
      intro l3 r2 i st hv hmem
      show _ ∈ (schemaFold (i + 1) l3 (schemaStep i (some r2) st)).errors
      apply schemaFold_errors_sub
      rw [(schemaStep_some_valid i r2 st hv).1, if_pos hmem]
      simp
  | cons d rest ih =>
      intro l3 r2 i st hv hmem
      show _ ∈ (schemaFold (i + 1) (rest ++ some r2 :: l3) (schemaStep i d st)).errors
      exact ih l3 r2 (i + 1) _ hv (schemaStep_ids_sub i d st _ hmem)

/-- Two individually valid records sharing an `id` anywhere in the
scanned list always raise the duplicate-`id` error. -/
theorem schemaFold_dup_id_main (l1 : List (Option RawDataset)) :
    ∀ (l2 l3 : List (Option RawDataset)) (r1 r2 : RawDataset) (i : Nat) (st : SchemaState),
      (validateDatasetFields r1).isValid = true →
      (validateDatasetFields r2).isValid = true →
      r1.id = r2.id →
      (⟨"id", "Duplicate dataset ID found"⟩ : ValidationError) ∈
        (schemaFold i (l1 ++ some r1 :: l2 ++ some r2 :: l3) st).errors := by
  induction l1 with
  | nil =>
      intro l2 l3 r1 r2 i st hv1 hv2 heq
      show _ ∈ (schemaFold (i + 1) (l2 ++ some r2 :: l3) (schemaStep i (some r1) st)).errors
      apply schemaFold_dup_id l2 l3 r2 (i + 1) _ hv2
      rw [← heq, (schemaStep_some_valid i r1 st hv1).2.1]
      split_ifs with h
      · exact h
      · simp
  | cons d rest ih =>
      intro l2 l3 r1 r2 i st hv1 hv2 heq
      show _ ∈ (schemaFold (i + 1) (rest ++ some r1 :: l2 ++ some r2 :: l3)
        (schemaStep i d st)).errors
      exact ih l2 l3 r1 r2 (i + 1) _ hv1 hv2 heq

/-- If a valid record whose `countryCode` is already remembered lies
ahead in the scan, the duplicate-`countryCode` warning is raised. -/
theorem schemaFold_dup_code (l2 : List (Option RawDataset)) :
    ∀ (l3 : List (Option RawDataset)) (r2 : RawDataset) (i : Nat) (st : SchemaState),
      (validateDatasetFields r2).isValid = true →
      r2.countryCode ∈ st.countryCodes →
      (⟨"countryCode", "Duplicate country code found"⟩ : ValidationError) ∈
        (schemaFold i (l2 ++ some r2 :: l3) st).warnings := by
  induction l2 with
  | nil =>
      intro l3 r2 i st hv hmem
      show _ ∈ (schemaFold (i + 1) l3 (schemaStep i (some r2) st)).warnings
      apply schemaFold_warns_sub
      rw [(schemaStep_some_valid i r2 st hv).2.2.1, if_pos hmem]
      simp
  | cons d rest ih =>
      intro l3 r2 i st hv hmem
      show _ ∈ (schemaFold (i + 1) (rest ++ some r2 :: l3) (schemaStep i d st)).warnings
      exact ih l3 r2 (i + 1) _ hv (schemaStep_codes_sub i d st _ hmem)

/-- Two individually valid records sharing a `countryCode` anywhere in
the scanned list always raise the duplicate-`countryCode` warning. -/
theorem schemaFold_dup_code_main (l1 : List (Option RawDataset)) :
    ∀ (l2 l3 : List (Option RawDataset)) (r1 r2 : RawDataset) (i : Nat) (st : SchemaState),
      (validateDatasetFields r1).isValid = true →
      (validateDatasetFields r2).isValid = true →
      r1.countryCode = r2.countryCode →
      (⟨"countryCode", "Duplicate country code found"⟩ : ValidationError) ∈
        (schemaFold i (l1 ++ some r1 :: l2 ++ some r2 :: l3) st).warnings := by
  induction l1 with
  | nil =>
      intro l2 l3 r1 r2 i st hv1 hv2 heq
      show _ ∈ (schemaFold (i + 1) (l2 ++ some r2 :: l3) (schemaStep i (some r1) st)).warnings
      apply schemaFold_dup_code l2 l3 r2 (i + 1) _ hv2
      rw [← heq, (schemaStep_some_valid i r1 st hv1).2.2.2]
      split_ifs with h
      · exact h
      · simp
  | cons d rest ih =>
      intro l2 l3 r1 r2 i st hv1 hv2 heq
      show _ ∈ (schemaFold (i + 1) (rest ++ some r1 :: l2 ++ some r2 :: l3)
        (schemaStep i d st)).warnings
      exact ih l2 l3 r1 r2 (i + 1) _ hv1 hv2 heq

/-- A scan over individually valid records whose `id` values are
pairwise distinct and not yet remembered adds no errors. -/
theorem schemaFold_no_new_errors (l : List (Option RawDataset)) :
    ∀ (i : Nat) (st : SchemaState),
      (∀ d ∈ l, recValid d = true) →
      (∀ r : RawDataset, some r ∈ l → r.id ∉ st.datasetIds) →
      ((l.map recId).Nodup) →
      (schemaFold i l st).errors = st.errors := by
  induction l with
  | nil => intro i st _ _ _; rfl
  | cons d rest ih =>
      intro i st hall hfresh hnodup
      obtain ⟨r, rfl⟩ : ∃ r : RawDataset, d = some r := by
        cases d with
        | none => exact absurd (hall none (by simp)) (by decide)
        | some r => exact ⟨r, rfl⟩
      have hv : (validateDatasetFields r).isValid = true := hall (some r) (by simp)
      have hnotmem : r.id ∉ st.datasetIds := hfresh r (by simp)
      have hchar := schemaStep_some_valid i r st hv
      show (schemaFold (i + 1) rest (schemaStep i (some r) st)).errors = st.errors
      rw [List.map_cons, List.nodup_cons] at hnodup
      have hstep : (schemaFold (i + 1) rest (schemaStep i (some r) st)).errors =
          (schemaStep i (some r) st).errors := by
        apply ih (i + 1)
        · intro d' hd'; exact hall d' (by simp [hd'])
        · intro r' hr'
          rw [hchar.2.1, if_neg hnotmem]
          intro hmem
          rcases List.mem_append.mp hmem with hmem | hmem
          · exact hfresh r' (by simp [hr']) hmem
          · have hne : recId (some r) ≠ recId (some r') := by
              intro hcontra
              exact hnodup.1 (hcontra ▸ List.mem_map_of_mem recId hr')
            rw [List.mem_singleton] at hmem
            exact hne (by simpa [recId] using hmem.symm)
        · exact hnodup.2
      rw [hstep, hchar.1, if_neg hnotmem]

/-- The schema validator's verdict equals emptiness of its error
list. -/
theorem validateJsonSchema_isValid_eq (data : RawCollection) :
    (validateJsonSchema data).isValid = (validateJsonSchema data).errors.isEmpty := rfl

/-- C9: on a collection with a valid envelope, a duplicate `id`
shared by two individually valid records is flagged as an error (the
collection fails schema validation), whereas a duplicate
`countryCode` among individually valid records with pairwise distinct
`id`s yields only a warning — the collection still passes. -/
theorem validateJsonSchema_duplicate_handling :
    (∀ (md : MetadataProp) (l1 l2 l3 : List (Option RawDataset)) (r1 r2 : RawDataset),
      (validateDatasetCollectionDetailed
        (.obj (.arr (l1 ++ some r1 :: l2 ++ some r2 :: l3)) md)).isValid = true →
      (validateDatasetFields r1).isValid = true →
      (validateDatasetFields r2).isValid = true →
      r1.id = r2.id →
      (⟨"id", "Duplicate dataset ID found"⟩ : ValidationError) ∈
        (validateJsonSchema
          (.obj (.arr (l1 ++ some r1 :: l2 ++ some r2 :: l3)) md)).errors ∧
      (validateJsonSchema
        (.obj (.arr (l1 ++ some r1 :: l2 ++ some r2 :: l3)) md)).isValid = false) ∧
    (∀ (md : MetadataProp) (l1 l2 l3 : List (Option RawDataset)) (r1 r2 : RawDataset),
      (validateDatasetCollectionDetailed
        (.obj (.arr (l1 ++ some r1 :: l2 ++ some r2 :: l3)) md)).isValid = true →
      (∀ d ∈ l1 ++ some r1 :: l2 ++ some r2 :: l3, recValid d = true) →
      ((l1 ++ some r1 :: l2 ++ some r2 :: l3).map recId).Nodup →
      r1.countryCode = r2.countryCode →
      (validateJsonSchema
        (.obj (.arr (l1 ++ some r1 :: l2 ++ some r2 :: l3)) md)).isValid = true ∧
      (⟨"countryCode", "Duplicate country code found"⟩ : ValidationError) ∈
        (validateJsonSchema
          (.obj (.arr (l1 ++ some r1 :: l2 ++ some r2 :: l3)) md)).warnings) := by
  constructor
  · intro md l1 l2 l3 r1 r2 henv hv1 hv2 heq
    have herr : (validateJsonSchema
        (.obj (.arr (l1 ++ some r1 :: l2 ++ some r2 :: l3)) md)).errors =
        (schemaFold 0 (l1 ++ some r1 :: l2 ++ some r2 :: l3)
          ⟨(validateDatasetCollectionDetailed
              (.obj (.arr (l1 ++ some r1 :: l2 ++ some r2 :: l3)) md)).errors,
            (validateDatasetCollectionDetailed
              (.obj (.arr (l1 ++ some r1 :: l2 ++ some r2 :: l3)) md)).warnings,
            [], []⟩).errors := by
      simp only [validateJsonSchema, henv, if_true]
    have hmem := schemaFold_dup_id_main l1 l2 l3 r1 r2 0
      ⟨(validateDatasetCollectionDetailed
          (.obj (.arr (l1 ++ some r1 :: l2 ++ some r2 :: l3)) md)).errors,
        (validateDatasetCollectionDetailed
          (.obj (.arr (l1 ++ some r1 :: l2 ++ some r2 :: l3)) md)).warnings,
        [], []⟩ hv1 hv2 heq
    refine ⟨herr ▸ hmem, ?_⟩
    rw [validateJsonSchema_isValid_eq]
    have hne := List.ne_nil_of_mem (herr ▸ hmem)
    cases hl : (validateJsonSchema
        (.obj (.arr (l1 ++ some r1 :: l2 ++ some r2 :: l3)) md)).errors with
    | nil => exact absurd hl hne
    | cons a t => rfl
  · intro md l1 l2 l3 r1 r2 henv hall hnodup heq
    have hcve : (validateDatasetCollectionDetailed
        (.obj (.arr (l1 ++ some r1 :: l2 ++ some r2 :: l3)) md)).errors = [] := by
      have h := validateDatasetCollectionDetailed_isValid_eq
        (.obj (.arr (l1 ++ some r1 :: l2 ++ some r2 :: l3)) md)
      rw [henv] at h
      exact List.isEmpty_iff.mp h.symm
    have herr : (validateJsonSchema
        (.obj (.arr (l1 ++ some r1 :: l2 ++ some r2 :: l3)) md)).errors =
        (schemaFold 0 (l1 ++ some r1 :: l2 ++ some r2 :: l3)
          ⟨(validateDatasetCollectionDetailed
              (.obj (.arr (l1 ++ some r1 :: l2 ++ some r2 :: l3)) md)).errors,
            (validateDatasetCollectionDetailed
              (.obj (.arr (l1 ++ some r1 :: l2 ++ some r2 :: l3)) md)).warnings,
            [], []⟩).errors := by
      simp only [validateJsonSchema, henv, if_true]
    have hwarn : (validateJsonSchema
        (.obj (.arr (l1 ++ some r1 :: l2 ++ some r2 :: l3)) md)).warnings =
        (schemaFold 0 (l1 ++ some r1 :: l2 ++ some r2 :: l3)
          ⟨(validateDatasetCollectionDetailed
              (.obj (.arr (l1 ++ some r1 :: l2 ++ some r2 :: l3)) md)).errors,
            (validateDatasetCollectionDetailed
              (.obj (.arr (l1 ++ some r1 :: l2 ++ some r2 :: l3)) md)).warnings,
            [], []⟩).warnings := by
      simp only [validateJsonSchema, henv, if_true]
    have hzero := schemaFold_no_new_errors
      (l1 ++ some r1 :: l2 ++ some r2 :: l3) 0
      ⟨(validateDatasetCollectionDetailed
          (.obj (.arr (l1 ++ some r1 :: l2 ++ some r2 :: l3)) md)).errors,
        (validateDatasetCollectionDetailed
          (.obj (.arr (l1 ++ some r1 :: l2 ++ some r2 :: l3)) md)).warnings,
        [], []⟩ hall (by intro r hr; simp) hnodup
    constructor
    · rw [validateJsonSchema_isValid_eq, herr, hzero]
      rw [show (SchemaState.mk (validateDatasetCollectionDetailed
          (.obj (.arr (l1 ++ some r1 :: l2 ++ some r2 :: l3)) md)).errors
          (validateDatasetCollectionDetailed
            (.obj (.arr (l1 ++ some r1 :: l2 ++ some r2 :: l3)) md)).warnings
          [] []).errors = (validateDatasetCollectionDetailed
          (.obj (.arr (l1 ++ some r1 :: l2 ++ some r2 :: l3)) md)).errors from rfl, hcve]
      rfl
    · have hv1 : (validateDatasetFields r1).isValid = true := hall (some r1) (by simp)
      have hv2 : (validateDatasetFields r2).isValid = true := hall (some r2) (by simp)
      have hmem := schemaFold_dup_code_main l1 l2 l3 r1 r2 0
        ⟨(validateDatasetCollectionDetailed
            (.obj (.arr (l1 ++ some r1 :: l2 ++ some r2 :: l3)) md)).errors,
          (validateDatasetCollectionDetailed
            (.obj (.arr (l1 ++ some r1 :: l2 ++ some r2 :: l3)) md)).warnings,
          [], []⟩ hv1 hv2 heq
      exact hwarn ▸ hmem

/-- Witness for `validateJsonSchema_duplicate_handling`: two copies
of the US record (same `id`) make the collection fail; the US record
next to a second record with a fresh `id` but the same `countryCode`
passes with the duplicate-code warning. -/
theorem validateJsonSchema_duplicate_handling_witness :
    ((validateDatasetCollectionDetailed
        (.obj (.arr [some usDataset, some usDataset]) (.obj sampleMetadata))).isValid
        = true ∧
      (⟨"id", "Duplicate dataset ID found"⟩ : ValidationError) ∈
        (validateJsonSchema
          (.obj (.arr [some usDataset, some usDataset]) (.obj sampleMetadata))).errors ∧
      (validateJsonSchema
        (.obj (.arr [some usDataset, some usDataset]) (.obj sampleMetadata))).isValid
        = false) ∧
    ((validateJsonSchema
        (.obj (.arr [some usDataset, some usDataset2]) (.obj sampleMetadata))).isValid
        = true ∧
      (⟨"countryCode", "Duplicate country code found"⟩ : ValidationError) ∈
        (validateJsonSchema
          (.obj (.arr [some usDataset, some usDataset2]) (.obj sampleMetadata))).warnings) :=
  ⟨⟨by decide,
    (validateJsonSchema_duplicate_handling.1 (.obj sampleMetadata) [] [] []
      usDataset usDataset (by decide) (by decide) (by decide) rfl).1,
    (validateJsonSchema_duplicate_handling.1 (.obj sampleMetadata) [] [] []
      usDataset usDataset (by decide) (by decide) (by decide) rfl).2⟩,
   ⟨(validateJsonSchema_duplicate_handling.2 (.obj sampleMetadata) [] [] []
      usDataset usDataset2 (by decide) (by decide) (by decide) rfl).1,
    (validateJsonSchema_duplicate_handling.2 (.obj sampleMetadata) [] [] []
      usDataset usDataset2 (by decide) (by decide) (by decide) rfl).2⟩⟩
